import Mathlib

/-!
Shallow embedding of `backend/agent/tools/iota_defi_tool.py` (class
`IOTADeFiTool`): a mock DeFi query service holding a static snapshot of
market data and user portfolios, answering five query operations.

Python floats are modelled as rationals (every stored constant is an exact
decimal, and no halfway rounding case occurs on the data the theorems
touch).  Python `round` is round-half-to-even, modelled by `roundHalfEven`.
Python `float('inf')` (the health factor with no debt) is modelled by
`none` in an `Option ℚ`.  A `ToolResult` is the success/failure envelope
produced by `success_response` / `fail_response`.
-/

/-- Round-half-to-even on an exact rational, matching Python `round`. -/
def roundHalfEven (q : ℚ) : ℤ :=
  let f : ℤ := ⌊q⌋
  let r : ℚ := q - (f : ℚ)
  if r < 1/2 then f
  else if 1/2 < r then f + 1
  else if f % 2 = 0 then f else f + 1

/-- Python `round(x, 2)`: round to 2 decimal places, half to even. -/
def round2 (q : ℚ) : ℚ := (roundHalfEven (q * 100) : ℚ) / 100

structure Asset where
  symbol : String
  price_usd : ℚ
  change_24h : ℚ
  market_cap_usd : ℚ
deriving DecidableEq, Repr

structure LendingPool where
  id : String
  name : String
  total_deposits : ℚ
  apy : ℚ
  utilization_rate : ℚ
  collateral_ratio_pct : ℚ
  assets : List String
deriving DecidableEq, Repr

structure RiskMetrics where
  market_volatility : ℚ
  liquidation_risk : ℚ
  protocol_health : ℚ
deriving DecidableEq, Repr

structure Collateral where
  asset : String
  amount : ℚ
  ratio_pct : ℚ
deriving DecidableEq, Repr

structure LendingPosition where
  pool_id : String
  deposited : ℚ
  asset : String
  apy : ℚ
  deposit_date : String
deriving DecidableEq, Repr

structure BorrowingPosition where
  pool_id : String
  borrowed : ℚ
  asset : String
  apr : ℚ
  borrow_date : String
  collateral : Option Collateral
deriving DecidableEq, Repr

structure UserPortfolio where
  wallet_balance : List (String × ℚ)
  lending_positions : List LendingPosition
  borrowing_positions : List BorrowingPosition
deriving DecidableEq, Repr

/-- `self.market_data["assets"]`. -/
def marketAssets : List Asset :=
  [ { symbol := "IOTA", price_usd := 0.1452, change_24h := 2.34,
      market_cap_usd := 403782401 },
    { symbol := "BTC", price_usd := 63245.78, change_24h := -1.23,
      market_cap_usd := 1234567890123 },
    { symbol := "ETH", price_usd := 3071.45, change_24h := 0.87,
      market_cap_usd := 369123456789 } ]

/-- The first stored lending pool. -/
def poolOne : LendingPool :=
  { id := "pool_1", name := "IOTA Stable Pool", total_deposits := 2500000,
    apy := 4.52, utilization_rate := 68.3, collateral_ratio_pct := 150,
    assets := ["IOTA", "USDT", "USDC"] }

/-- The second stored lending pool. -/
def poolTwo : LendingPool :=
  { id := "pool_2", name := "IOTA High Yield", total_deposits := 1200000,
    apy := 8.76, utilization_rate := 82.1, collateral_ratio_pct := 200,
    assets := ["IOTA", "BTC", "ETH"] }

/-- `self.market_data["lending_pools"]`. -/
def lendingPools : List LendingPool := [poolOne, poolTwo]

/-- `self.market_data["risk_metrics"]`. -/
def riskMetrics : RiskMetrics :=
  { market_volatility := 0.42, liquidation_risk := 0.31,
    protocol_health := 0.89 }

/-- The stored portfolio of `"user_123"`. -/
def portfolioUser123 : UserPortfolio :=
  { wallet_balance := [("IOTA", 10000), ("USDT", 5000)],
    lending_positions :=
      [ { pool_id := "pool_1", deposited := 4000, asset := "IOTA",
          apy := 4.52, deposit_date := "2023-10-15" } ],
    borrowing_positions :=
      [ { pool_id := "pool_2", borrowed := 2000, asset := "USDT",
          apr := 5.67, borrow_date := "2023-11-01",
          collateral := some { asset := "IOTA", amount := 6000,
                               ratio_pct := 175 } } ] }

/-- `self.user_portfolios`. -/
def user_portfolios : List (String × UserPortfolio) :=
  [("user_123", portfolioUser123)]

/-- The success/failure envelope returned by every operation. -/
inductive ToolResult (α : Type) where
  | success (data : α)
  | failure (msg : String)
deriving DecidableEq, Repr

/-- `asset_prices` dictionary with `.get(symbol, 0)`: the stored price of a
symbol, defaulting to `0` when the symbol is absent. -/
def priceOf (sym : String) : ℚ :=
  ((marketAssets.find? (fun a => a.symbol = sym)).map Asset.price_usd).getD 0

/-- `get_market_data`: empty or absent symbol list returns all assets;
otherwise the stored-order filter, failing when nothing matches. -/
def get_market_data (assets : Option (List String)) : ToolResult (List Asset) :=
  match assets with
  | none => .success marketAssets
  | some l =>
      if l = [] then .success marketAssets
      else
        let filtered := marketAssets.filter (fun a => l.contains a.symbol)
        if filtered = [] then
          .failure ("No data found for assets: " ++ String.intercalate ", " l)
        else .success filtered

/-- Decimal rendering of a two-decimal rational, for interpolated messages. -/
def twoDecString (q : ℚ) : String :=
  let c : ℤ := roundHalfEven (q * 100)
  let ip := c / 100
  let fp := (c % 100).natAbs
  toString ip ++ "." ++ (if fp < 10 then "0" else "") ++ toString fp

/-- The filter-description string of the `get_lending_pools` failure. -/
def lendingPoolFilterString (min_apy : Option ℚ) (assets : Option (List String)) :
    String :=
  let f1 : List String :=
    match min_apy with
    | some m => ["min_apy=" ++ twoDecString m]
    | none => []
  let f2 : List String :=
    match assets with
    | some l => if l = [] then [] else ["assets=" ++ String.intercalate ", " l]
    | none => []
  String.intercalate ", " (f1 ++ f2)

/-- `get_lending_pools`: retain pools with `apy ≥ min_apy` (when given) and
pools sharing at least one symbol with a non-empty `assets` list (when
given); fail, naming the applied filters, when nothing remains. -/
def get_lending_pools (min_apy : Option ℚ) (assets : Option (List String)) :
    ToolResult (List LendingPool) :=
  let pools0 := lendingPools
  let pools1 :=
    match min_apy with
    | some m => pools0.filter (fun p => m ≤ p.apy)
    | none => pools0
  let pools2 :=
    match assets with
    | some l =>
        if l = [] then pools1
        else pools1.filter (fun p => l.any (fun a => p.assets.contains a))
    | none => pools1
  if pools2 = [] then
    .failure ("No lending pools found with filters: " ++
      lendingPoolFilterString min_apy assets)
  else .success pools2

/-- Volatility / liquidation-risk bucket of `get_risk_assessment`. -/
def riskBucket (v : ℚ) : String :=
  if v < 0.3 then "low" else if v < 0.7 then "moderate" else "high"

/-- Protocol-health bucket of `get_risk_assessment`. -/
def healthBucket (h : ℚ) : String :=
  if h > 0.8 then "excellent" else if h > 0.5 then "good" else "concerning"

/-- Utilization-rate bucket of the pool branch of `get_risk_assessment`. -/
def utilizationBucket (u : ℚ) : String :=
  if u < 60 then "low" else if u < 80 then "moderate" else "high"

/-- Collateral-safety bucket of the pool branch of `get_risk_assessment`. -/
def collateralSafetyBucket (c : ℚ) : String :=
  if c > 180 then "high" else if c > 140 then "moderate" else "low"

structure MarketRiskAnalysis where
  metrics : RiskMetrics
  assessment : String
  recommendations : List String
deriving DecidableEq, Repr

structure PoolRiskAnalysis where
  pool : LendingPool
  assessment : String
  recommendations : List String
deriving DecidableEq, Repr

inductive RiskAnalysis where
  | market (a : MarketRiskAnalysis)
  | pool (a : PoolRiskAnalysis)
deriving DecidableEq, Repr

/-- The market-wide analysis built when no pool id is supplied. -/
def marketRiskAnalysis : MarketRiskAnalysis :=
  let market_risk := riskBucket riskMetrics.market_volatility
  let liquidation_risk := riskBucket riskMetrics.liquidation_risk
  let protocol_health := healthBucket riskMetrics.protocol_health
  { metrics := riskMetrics,
    assessment := "The current market presents " ++ market_risk ++
      " volatility with " ++ liquidation_risk ++
      " liquidation risk. Overall protocol health is " ++ protocol_health ++ ".",
    recommendations :=
      [ "Maintain appropriate collateralization ratios above 150%",
        "Diversify lending positions across multiple pools",
        "Consider hedging strategies in high volatility periods" ] }

/-- The pool-specific analysis of `get_risk_assessment`. -/
def poolRiskAnalysis (pool : LendingPool) : PoolRiskAnalysis :=
  let utilization := pool.utilization_rate
  let collateral := pool.collateral_ratio_pct
  let utilization_risk := utilizationBucket utilization
  let collateral_safety := collateralSafetyBucket collateral
  { pool := pool,
    assessment := "Pool " ++ pool.name ++ " has " ++ utilization_risk ++
      " utilization risk and " ++ collateral_safety ++ " collateral safety.",
    recommendations :=
      [ (if utilization > 80 then
           "Consider depositing more assets to earn higher yields"
         else "This pool has capacity for more deposits"),
        (if utilization > 80 then
           "Maintain higher collateral ratios due to high utilization"
         else "Standard collateral ratios are likely sufficient") ] }

/-- `get_risk_assessment`: market analysis when `pool_id` is falsy, pool
analysis when the pool exists, not-found failure otherwise. -/
def get_risk_assessment (pool_id : Option String) : ToolResult RiskAnalysis :=
  match pool_id with
  | none => .success (.market marketRiskAnalysis)
  | some pid =>
      if pid = "" then .success (.market marketRiskAnalysis)
      else
        match lendingPools.find? (fun p => p.id = pid) with
        | none => .failure ("Lending pool with ID " ++ pid ++ " not found")
        | some pool => .success (.pool (poolRiskAnalysis pool))

structure PortfolioMetrics where
  total_wallet_value_usd : ℚ
  total_lending_value_usd : ℚ
  total_borrowing_value_usd : ℚ
  total_collateral_value_usd : ℚ
  net_position_usd : ℚ
  health_factor : Option ℚ
deriving DecidableEq, Repr

structure PortfolioWithMetrics where
  portfolio : UserPortfolio
  metrics : PortfolioMetrics
deriving DecidableEq, Repr

/-- The six computed metrics of `get_user_portfolio`; `health_factor = none`
models the Python `float('inf')` branch taken when there is no debt. -/
def portfolioMetrics (portfolio : UserPortfolio) : PortfolioMetrics :=
  let wallet_value :=
    (portfolio.wallet_balance.map (fun kv => kv.2 * priceOf kv.1)).sum
  let lending_value :=
    (portfolio.lending_positions.map
      (fun pos => pos.deposited * priceOf pos.asset)).sum
  let borrowing_value :=
    (portfolio.borrowing_positions.map
      (fun pos => pos.borrowed * priceOf pos.asset)).sum
  let collateral_value :=
    (portfolio.borrowing_positions.filterMap
      (fun pos => pos.collateral.map (fun c => c.amount * priceOf c.asset))).sum
  { total_wallet_value_usd := round2 wallet_value,
    total_lending_value_usd := round2 lending_value,
    total_borrowing_value_usd := round2 borrowing_value,
    total_collateral_value_usd := round2 collateral_value,
    net_position_usd := round2 (wallet_value + lending_value - borrowing_value),
    health_factor :=
      if 0 < borrowing_value then some (round2 (collateral_value / borrowing_value))
      else none }

/-- `get_user_portfolio`: reject a missing user id, fail on an unknown one,
and otherwise return the stored portfolio with its computed metrics. -/
def get_user_portfolio (user_id : String) : ToolResult PortfolioWithMetrics :=
  if user_id = "" then .failure "User ID is required"
  else
    match user_portfolios.lookup user_id with
    | none => .failure ("No portfolio found for user ID: " ++ user_id)
    | some portfolio =>
        .success { portfolio := portfolio, metrics := portfolioMetrics portfolio }

def valid_risk_levels : List String := ["conservative", "moderate", "aggressive"]

def valid_horizons : List String := ["short", "medium", "long"]

/-- An allocation triple over the keys stablecoins, IOTA, other_crypto
(in that dictionary order). -/
structure AllocOut where
  stablecoins : ℤ
  IOTA : ℤ
  other_crypto : ℤ
deriving DecidableEq, Repr

/-- Base allocations per risk tolerance, `(stablecoins, IOTA, other_crypto)`. -/
def base_allocations : List (String × (ℚ × ℚ × ℚ)) :=
  [ ("conservative", (60, 30, 10)),
    ("moderate", (40, 40, 20)),
    ("aggressive", (20, 50, 30)) ]

/-- Horizon adjustments, `(stablecoins, IOTA, other_crypto)`. -/
def horizon_adjustments : List (String × (ℚ × ℚ × ℚ)) :=
  [ ("short", (10, -5, -5)),
    ("medium", (0, 0, 0)),
    ("long", (-10, 5, 5)) ]

/-- The adjusted, rounded and clamped triple of `_generate_asset_allocation`
before the normalization step; `none` models the `KeyError` a lookup of an
unknown risk tolerance or horizon would raise. -/
def clamped_allocation (risk_tolerance investment_horizon : String)
    (market_volatility : ℚ) : Option AllocOut :=
  match base_allocations.lookup risk_tolerance,
        horizon_adjustments.lookup investment_horizon with
  | some (bs, bi, bo), some (hs, hi, ho) =>
      let v := market_volatility * 10
      some { stablecoins := max 0 (min 100 (roundHalfEven (bs + hs + v))),
             IOTA := max 0 (min 100 (roundHalfEven (bi + hi + (-(v / 2))))),
             other_crypto := max 0 (min 100 (roundHalfEven (bo + ho + (-(v / 2))))) }
  | _, _ => none

/-- `max(final_allocation, key=final_allocation.get)` with the residual added
to it: Python `max` returns the first key attaining the maximum in the
dictionary order stablecoins, IOTA, other_crypto. -/
def addToLargest (a : AllocOut) (d : ℤ) : AllocOut :=
  if a.IOTA ≤ a.stablecoins ∧ a.other_crypto ≤ a.stablecoins then
    { a with stablecoins := a.stablecoins + d }
  else if a.stablecoins < a.IOTA ∧ a.other_crypto ≤ a.IOTA then
    { a with IOTA := a.IOTA + d }
  else
    { a with other_crypto := a.other_crypto + d }

/-- The normalization step of `_generate_asset_allocation`: rescale by
`100/total` when the triple misses 100, re-round, and push the remaining
residual onto the largest share.  A zero total raises `ZeroDivisionError`
in Python, modelled by the `Except.error` branch. -/
def normalize_allocation (a : AllocOut) : Except String AllocOut :=
  let total := a.stablecoins + a.IOTA + a.other_crypto
  if total = 100 then .ok a
  else if total = 0 then .error "division by zero"
  else
    let scale : ℚ := 100 / (total : ℚ)
    let a2 : AllocOut :=
      { stablecoins := roundHalfEven ((a.stablecoins : ℚ) * scale),
        IOTA := roundHalfEven ((a.IOTA : ℚ) * scale),
        other_crypto := roundHalfEven ((a.other_crypto : ℚ) * scale) }
    let diff := 100 - (a2.stablecoins + a2.IOTA + a2.other_crypto)
    .ok (if diff = 0 then a2 else addToLargest a2 diff)

/-- `_generate_asset_allocation`; errors model the exceptions the Python body
can raise, which the operation boundary catches. -/
def generate_asset_allocation (risk_tolerance investment_horizon : String)
    (market_volatility : ℚ) : Except String AllocOut :=
  match clamped_allocation risk_tolerance investment_horizon market_volatility with
  | none => .error ("KeyError: " ++ risk_tolerance ++ " or " ++ investment_horizon)
  | some a => normalize_allocation a

structure Strategy where
  name : String
  description : String
deriving DecidableEq, Repr

/-- `_generate_strategies`. -/
def generate_strategies (risk_tolerance investment_horizon : String)
    (market_volatility : ℚ) : List Strategy :=
  let s0 : List Strategy :=
    [ { name := "Diversification",
        description := "Spread investments across multiple assets to reduce risk" } ]
  let s1 : List Strategy :=
    if risk_tolerance = "conservative" then
      s0 ++ [ { name := "Stable Yield Farming",
                description := "Focus on stable assets and lower-risk lending pools with consistent returns" } ] ++
      (if investment_horizon = "medium" ∨ investment_horizon = "long" then
        [ { name := "Dollar-Cost Averaging",
            description := "Gradually invest in IOTA over time to reduce impact of volatility" } ]
       else [])
    else if risk_tolerance = "moderate" then
      s0 ++ [ { name := "Balanced Approach",
                description := "Combine stable yields with some higher-risk positions for growth potential" },
              { name := "Strategic Rebalancing",
                description := "Periodically adjust portfolio allocations to maintain desired risk level" } ]
    else if risk_tolerance = "aggressive" then
      s0 ++ [ { name := "Growth Focus",
                description := "Target higher yields through more volatile assets and lending opportunities" } ] ++
      (if market_volatility < 0.7 then
        [ { name := "Strategic Leverage",
            description := "Use carefully managed leverage positions for amplified returns" } ]
       else [])
    else s0
  if market_volatility > 0.6 then
    s1 ++ [ { name := "Volatility Hedging",
              description := "Increase stablecoin allocation and use hedging strategies during high volatility" } ]
  else s1

structure Opportunity where
  optype : String
  name : String
  description : String
  expected_return : String
  risk_level : String
deriving DecidableEq, Repr

/-- `pool_risk_levels` mapping pool ids to risk tags, in dictionary order. -/
def pool_risk_levels : List (String × String) :=
  [("pool_1", "conservative"), ("pool_2", "aggressive")]

/-- `_generate_opportunities`. -/
def generate_opportunities (risk_tolerance investment_horizon : String) :
    List Opportunity :=
  let suitable_pools : List LendingPool :=
    pool_risk_levels.filterMap (fun pr =>
      if (risk_tolerance = "conservative" ∧ pr.2 = "conservative") ∨
         risk_tolerance = "moderate" ∨ risk_tolerance = "aggressive" then
        lendingPools.find? (fun p => p.id = pr.1)
      else none)
  let lending_opps : List Opportunity :=
    suitable_pools.map (fun p =>
      { optype := "lending",
        name := p.name ++ " Deposit",
        description := "Deposit assets in " ++ p.name ++ " for " ++
          twoDecString p.apy ++ "% APY",
        expected_return := twoDecString p.apy ++ "%",
        risk_level := if p.id = "pool_1" then "Low" else "Medium-High" })
  let with_staking : List Opportunity :=
    if risk_tolerance ≠ "conservative" then
      lending_opps ++
        [ { optype := "staking", name := "IOTA Staking",
            description := "Stake IOTA tokens to earn rewards and support network security",
            expected_return := "5-7%", risk_level := "Medium" } ]
    else lending_opps
  if risk_tolerance = "aggressive" ∧ investment_horizon ≠ "short" then
    with_staking ++
      [ { optype := "yield_farming", name := "IOTA-BTC LP Farming",
          description := "Provide liquidity to IOTA-BTC pair for trading fees and rewards",
          expected_return := "12-15%", risk_level := "High" } ]
  else with_staking

structure RebalanceAction where
  action : String
  description : String
  reasoning : String
deriving DecidableEq, Repr

structure RebalancingAdvice where
  summary : String
  actions : List RebalanceAction
deriving DecidableEq, Repr

/-- `_generate_rebalancing_advice`. -/
def generate_rebalancing_advice (portfolio : UserPortfolio)
    (risk_tolerance : String) : RebalancingAdvice :=
  let iotaAboveThreshold : Bool :=
    match portfolio.wallet_balance.lookup "IOTA" with
    | some amt => decide (5000 < amt)
    | none => false
  let a0 : List RebalanceAction :=
    if iotaAboveThreshold ∧ risk_tolerance = "conservative" then
      [ { action := "Reduce IOTA exposure",
          description := "Consider converting 20% of your IOTA holdings to stablecoins to reduce volatility risk",
          reasoning := "Your current IOTA allocation exceeds the recommended amount for your risk profile" } ]
    else []
  let a1 : List RebalanceAction :=
    if portfolio.lending_positions.length < 2 then
      a0 ++ [ { action := "Diversify lending positions",
                description := "Spread your deposits across multiple lending pools to reduce platform-specific risk",
                reasoning := "Diversification can help protect against pool-specific issues or smart contract vulnerabilities" } ]
    else a0
  { summary := "Your portfolio may benefit from rebalancing to better align with your risk profile.",
    actions := a1 }

structure RiskRecommendation where
  priority : String
  action : String
  description : String
  reasoning : String
deriving DecidableEq, Repr

structure RiskManagementAdvice where
  current_health : String
  recommendations : List RiskRecommendation
deriving DecidableEq, Repr

/-- `_generate_risk_management_advice`. -/
def generate_risk_management_advice (portfolio : UserPortfolio)
    (market_volatility : ℚ) : RiskManagementAdvice :=
  let r0 : List RiskRecommendation :=
    portfolio.borrowing_positions.filterMap (fun pos =>
      match pos.collateral with
      | some c =>
          if c.ratio_pct < 180 then
            some { priority := "High", action := "Increase collateral",
                   description := "Add more collateral to your " ++ pos.asset ++
                     " borrowing position to reduce liquidation risk",
                   reasoning := "Current market volatility increases the risk of liquidation for positions with lower collateral ratios" }
          else none
      | none => none)
  let r1 : List RiskRecommendation :=
    if market_volatility > 0.4 then
      r0 ++ [ { priority := "Medium", action := "Set up stop-loss strategies",
                description := "Configure automated protection for your more volatile assets",
                reasoning := "Current market conditions suggest increased volatility may continue" } ]
    else r0
  { current_health :=
      if market_volatility < 0.5 then "Good" else "Requires Attention",
    recommendations :=
      r1 ++ [ { priority := "Low", action := "Review lending pool utilization",
                description := "Monitor the utilization rates of pools where you have deposits",
                reasoning := "High utilization rates may indicate increased risk of liquidity issues" } ] }

structure PortfolioSpecific where
  rebalancing : RebalancingAdvice
  risk_management : RiskManagementAdvice
deriving DecidableEq, Repr

structure Recommendations where
  asset_allocation : AllocOut
  strategies : List Strategy
  specific_opportunities : List Opportunity
  portfolio_specific : Option PortfolioSpecific
deriving DecidableEq, Repr

/-- `get_ai_investment_recommendations`: validate the two enums, silently
skip an unknown (or falsy) user id, and assemble the recommendation record;
an exception from the allocation generator is caught at this boundary and
turned into a failure envelope. -/
def get_ai_investment_recommendations (risk_tolerance investment_horizon : String)
    (user_id : Option String) : ToolResult Recommendations :=
  if ¬ valid_risk_levels.contains risk_tolerance then
    .failure ("Invalid risk_tolerance. Must be one of: " ++
      String.intercalate ", " valid_risk_levels)
  else if ¬ valid_horizons.contains investment_horizon then
    .failure ("Invalid investment_horizon. Must be one of: " ++
      String.intercalate ", " valid_horizons)
  else
    let user_portfolio : Option UserPortfolio :=
      match user_id with
      | none => none
      | some u => if u = "" then none else user_portfolios.lookup u
    let market_volatility := riskMetrics.market_volatility
    match generate_asset_allocation risk_tolerance investment_horizon
            market_volatility with
    | .error e =>
        .failure ("Error generating investment recommendations: " ++ e)
    | .ok alloc =>
        .success
          { asset_allocation := alloc,
            strategies :=
              generate_strategies risk_tolerance investment_horizon
                market_volatility,
            specific_opportunities :=
              generate_opportunities risk_tolerance investment_horizon,
            portfolio_specific :=
              user_portfolio.map (fun p =>
                { rebalancing := generate_rebalancing_advice p risk_tolerance,
                  risk_management :=
                    generate_risk_management_advice p market_volatility }) }

/-- The body of `get_ai_investment_recommendations` after the enum checks
(the remainder of its `try` block), parameterized by the market volatility it
reads from the stored risk metrics: load the portfolio when the user id is
truthy, and assemble the recommendation record; an `Except.error` fault of
the allocation generator is converted here into the failure envelope
carrying the cause's message, mirroring the `except` clause. -/
def ai_recommendations_core (risk_tolerance investment_horizon : String)
    (user_id : Option String) (market_volatility : ℚ) :
    ToolResult Recommendations :=
  let user_portfolio : Option UserPortfolio :=
    match user_id with
    | none => none
    | some u => if u = "" then none else user_portfolios.lookup u
  match generate_asset_allocation risk_tolerance investment_horizon
          market_volatility with
  | .error e =>
      .failure ("Error generating investment recommendations: " ++ e)
  | .ok alloc =>
      .success
        { asset_allocation := alloc,
          strategies :=
            generate_strategies risk_tolerance investment_horizon
              market_volatility,
          specific_opportunities :=
            generate_opportunities risk_tolerance investment_horizon,
          portfolio_specific :=
            user_portfolio.map (fun p =>
              { rebalancing := generate_rebalancing_advice p risk_tolerance,
                risk_management :=
                  generate_risk_management_advice p market_volatility }) }

/-- Modelled from the spec's words (asset-allocation algorithm, steps 1-5),
for the refinement comparison of the allocation claim: base percentages per
risk tolerance, horizon delta, volatility delta `v = market_volatility*10`,
each result clamped into `[0,100]` and rounded, and, when the values miss
100, every value rescaled by `100/sum`, rounded, with the residual added to
the category holding the largest share. -/
def spec_asset_allocation (risk_tolerance investment_horizon : String)
    (market_volatility : ℚ) : AllocOut :=
  let base : ℚ × ℚ × ℚ :=
    if risk_tolerance = "conservative" then (60, 30, 10)
    else if risk_tolerance = "moderate" then (40, 40, 20)
    else (20, 50, 30)
  let hd : ℚ × ℚ × ℚ :=
    if investment_horizon = "short" then (10, -5, -5)
    else if investment_horizon = "medium" then (0, 0, 0)
    else (-10, 5, 5)
  let v := market_volatility * 10
  let s := roundHalfEven (max 0 (min 100 (base.1 + hd.1 + v)))
  let i := roundHalfEven (max 0 (min 100 (base.2.1 + hd.2.1 - v / 2)))
  let o := roundHalfEven (max 0 (min 100 (base.2.2 + hd.2.2 - v / 2)))
  let total := s + i + o
  if total = 100 then { stablecoins := s, IOTA := i, other_crypto := o }
  else
    let scale : ℚ := 100 / (total : ℚ)
    let a2 : AllocOut :=
      { stablecoins := roundHalfEven ((s : ℚ) * scale),
        IOTA := roundHalfEven ((i : ℚ) * scale),
        other_crypto := roundHalfEven ((o : ℚ) * scale) }
    addToLargest a2 (100 - (a2.stablecoins + a2.IOTA + a2.other_crypto))

/-- Modelled from the spec's words for the lending-pool claim: the pools
retained from the stored list, in stored order, by the conjunction of the
two optional filters. -/
def spec_kept_pools (min_apy : Option ℚ) (assets : Option (List String)) :
    List LendingPool :=
  lendingPools.filter (fun p =>
    (match min_apy with
     | some m => decide (m ≤ p.apy)
     | none => true) &&
    (match assets with
     | some l => decide (l = []) || l.any (fun a => p.assets.contains a)
     | none => true))

/-- The lending opportunity emitted for pool_1. -/
def oppPoolOne : Opportunity :=
  { optype := "lending", name := "IOTA Stable Pool Deposit",
    description := "Deposit assets in IOTA Stable Pool for 4.52% APY",
    expected_return := "4.52%", risk_level := "Low" }

/-- The lending opportunity emitted for pool_2. -/
def oppPoolTwo : Opportunity :=
  { optype := "lending", name := "IOTA High Yield Deposit",
    description := "Deposit assets in IOTA High Yield for 8.76% APY",
    expected_return := "8.76%", risk_level := "Medium-High" }

/-- The fixed IOTA-staking opportunity. -/
def oppStaking : Opportunity :=
  { optype := "staking", name := "IOTA Staking",
    description := "Stake IOTA tokens to earn rewards and support network security",
    expected_return := "5-7%", risk_level := "Medium" }

/-- The fixed IOTA-BTC liquidity-farming opportunity. -/
def oppFarming : Opportunity :=
  { optype := "yield_farming", name := "IOTA-BTC LP Farming",
    description := "Provide liquidity to IOTA-BTC pair for trading fees and rewards",
    expected_return := "12-15%", risk_level := "High" }

/-! ### Evaluation lemmas -/

lemma twoDecString_apyOne : twoDecString (4.52 : ℚ) = "4.52" := by
  have h : roundHalfEven ((4.52 : ℚ) * 100) = 452 := by norm_num [roundHalfEven]
  rw [twoDecString, h]; decide

lemma twoDecString_apyTwo : twoDecString (8.76 : ℚ) = "8.76" := by
  have h : roundHalfEven ((8.76 : ℚ) * 100) = 876 := by norm_num [roundHalfEven]
  rw [twoDecString, h]; decide

lemma opps_conservative (ih : String) :
    generate_opportunities "conservative" ih = [oppPoolOne] := by
  simp [generate_opportunities, pool_risk_levels, lendingPools, List.find?,
    poolOne, poolTwo, oppPoolOne, twoDecString_apyOne]

lemma opps_moderate (ih : String) :
    generate_opportunities "moderate" ih = [oppPoolOne, oppPoolTwo, oppStaking] := by
  simp [generate_opportunities, pool_risk_levels, lendingPools, List.find?,
    poolOne, poolTwo, oppPoolOne, oppPoolTwo, oppStaking,
    twoDecString_apyOne, twoDecString_apyTwo]

lemma opps_aggressive_short :
    generate_opportunities "aggressive" "short" =
      [oppPoolOne, oppPoolTwo, oppStaking] := by
  simp [generate_opportunities, pool_risk_levels, lendingPools, List.find?,
    poolOne, poolTwo, oppPoolOne, oppPoolTwo, oppStaking,
    twoDecString_apyOne, twoDecString_apyTwo]

lemma opps_aggressive_medium :
    generate_opportunities "aggressive" "medium" =
      [oppPoolOne, oppPoolTwo, oppStaking, oppFarming] := by
  simp [generate_opportunities, pool_risk_levels, lendingPools, List.find?,
    poolOne, poolTwo, oppPoolOne, oppPoolTwo, oppStaking, oppFarming,
    twoDecString_apyOne, twoDecString_apyTwo]

lemma opps_aggressive_long :
    generate_opportunities "aggressive" "long" =
      [oppPoolOne, oppPoolTwo, oppStaking, oppFarming] := by
  simp [generate_opportunities, pool_risk_levels, lendingPools, List.find?,
    poolOne, poolTwo, oppPoolOne, oppPoolTwo, oppStaking, oppFarming,
    twoDecString_apyOne, twoDecString_apyTwo]

lemma clamped_conservative_short :
    clamped_allocation "conservative" "short" 0.42 =
      some { stablecoins := 74, IOTA := 23, other_crypto := 3 } := by
  have h1 : base_allocations.lookup "conservative" = some (60, 30, 10) := by rfl
  have h2 : horizon_adjustments.lookup "short" = some (10, -5, -5) := by rfl
  rw [clamped_allocation, h1, h2]
  norm_num [roundHalfEven]

lemma genAlloc_conservative_short :
    generate_asset_allocation "conservative" "short" 0.42 =
      .ok { stablecoins := 74, IOTA := 23, other_crypto := 3 } := by
  rw [generate_asset_allocation, clamped_conservative_short]
  norm_num [normalize_allocation]

lemma clamped_conservative_medium :
    clamped_allocation "conservative" "medium" 0.42 =
      some { stablecoins := 64, IOTA := 28, other_crypto := 8 } := by
  have h1 : base_allocations.lookup "conservative" = some (60, 30, 10) := by rfl
  have h2 : horizon_adjustments.lookup "medium" = some (0, 0, 0) := by rfl
  rw [clamped_allocation, h1, h2]
  norm_num [roundHalfEven]

lemma genAlloc_conservative_medium :
    generate_asset_allocation "conservative" "medium" 0.42 =
      .ok { stablecoins := 64, IOTA := 28, other_crypto := 8 } := by
  rw [generate_asset_allocation, clamped_conservative_medium]
  norm_num [normalize_allocation]

lemma clamped_conservative_long :
    clamped_allocation "conservative" "long" 0.42 =
      some { stablecoins := 54, IOTA := 33, other_crypto := 13 } := by
  have h1 : base_allocations.lookup "conservative" = some (60, 30, 10) := by rfl
  have h2 : horizon_adjustments.lookup "long" = some (-10, 5, 5) := by rfl
  rw [clamped_allocation, h1, h2]
  norm_num [roundHalfEven]

lemma genAlloc_conservative_long :
    generate_asset_allocation "conservative" "long" 0.42 =
      .ok { stablecoins := 54, IOTA := 33, other_crypto := 13 } := by
  rw [generate_asset_allocation, clamped_conservative_long]
  norm_num [normalize_allocation]

lemma clamped_moderate_short :
    clamped_allocation "moderate" "short" 0.42 =
      some { stablecoins := 54, IOTA := 33, other_crypto := 13 } := by
  have h1 : base_allocations.lookup "moderate" = some (40, 40, 20) := by rfl
  have h2 : horizon_adjustments.lookup "short" = some (10, -5, -5) := by rfl
  rw [clamped_allocation, h1, h2]
  norm_num [roundHalfEven]

lemma genAlloc_moderate_short :
    generate_asset_allocation "moderate" "short" 0.42 =
      .ok { stablecoins := 54, IOTA := 33, other_crypto := 13 } := by
  rw [generate_asset_allocation, clamped_moderate_short]
  norm_num [normalize_allocation]

lemma clamped_moderate_medium :
    clamped_allocation "moderate" "medium" 0.42 =
      some { stablecoins := 44, IOTA := 38, other_crypto := 18 } := by
  have h1 : base_allocations.lookup "moderate" = some (40, 40, 20) := by rfl
  have h2 : horizon_adjustments.lookup "medium" = some (0, 0, 0) := by rfl
  rw [clamped_allocation, h1, h2]
  norm_num [roundHalfEven]

lemma genAlloc_moderate_medium :
    generate_asset_allocation "moderate" "medium" 0.42 =
      .ok { stablecoins := 44, IOTA := 38, other_crypto := 18 } := by
  rw [generate_asset_allocation, clamped_moderate_medium]
  norm_num [normalize_allocation]

lemma clamped_moderate_long :
    clamped_allocation "moderate" "long" 0.42 =
      some { stablecoins := 34, IOTA := 43, other_crypto := 23 } := by
  have h1 : base_allocations.lookup "moderate" = some (40, 40, 20) := by rfl
  have h2 : horizon_adjustments.lookup "long" = some (-10, 5, 5) := by rfl
  rw [clamped_allocation, h1, h2]
  norm_num [roundHalfEven]

lemma genAlloc_moderate_long :
    generate_asset_allocation "moderate" "long" 0.42 =
      .ok { stablecoins := 34, IOTA := 43, other_crypto := 23 } := by
  rw [generate_asset_allocation, clamped_moderate_long]
  norm_num [normalize_allocation]

lemma clamped_aggressive_short :
    clamped_allocation "aggressive" "short" 0.42 =
      some { stablecoins := 34, IOTA := 43, other_crypto := 23 } := by
  have h1 : base_allocations.lookup "aggressive" = some (20, 50, 30) := by rfl
  have h2 : horizon_adjustments.lookup "short" = some (10, -5, -5) := by rfl
  rw [clamped_allocation, h1, h2]
  norm_num [roundHalfEven]

lemma genAlloc_aggressive_short :
    generate_asset_allocation "aggressive" "short" 0.42 =
      .ok { stablecoins := 34, IOTA := 43, other_crypto := 23 } := by
  rw [generate_asset_allocation, clamped_aggressive_short]
  norm_num [normalize_allocation]

lemma clamped_aggressive_medium :
    clamped_allocation "aggressive" "medium" 0.42 =
      some { stablecoins := 24, IOTA := 48, other_crypto := 28 } := by
  have h1 : base_allocations.lookup "aggressive" = some (20, 50, 30) := by rfl
  have h2 : horizon_adjustments.lookup "medium" = some (0, 0, 0) := by rfl
  rw [clamped_allocation, h1, h2]
  norm_num [roundHalfEven]

lemma genAlloc_aggressive_medium :
    generate_asset_allocation "aggressive" "medium" 0.42 =
      .ok { stablecoins := 24, IOTA := 48, other_crypto := 28 } := by
  rw [generate_asset_allocation, clamped_aggressive_medium]
  norm_num [normalize_allocation]

lemma clamped_aggressive_long :
    clamped_allocation "aggressive" "long" 0.42 =
      some { stablecoins := 14, IOTA := 53, other_crypto := 33 } := by
  have h1 : base_allocations.lookup "aggressive" = some (20, 50, 30) := by rfl
  have h2 : horizon_adjustments.lookup "long" = some (-10, 5, 5) := by rfl
  rw [clamped_allocation, h1, h2]
  norm_num [roundHalfEven]

lemma genAlloc_aggressive_long :
    generate_asset_allocation "aggressive" "long" 0.42 =
      .ok { stablecoins := 14, IOTA := 53, other_crypto := 33 } := by
  rw [generate_asset_allocation, clamped_aggressive_long]
  norm_num [normalize_allocation]

lemma priceOf_IOTA : priceOf "IOTA" = 0.1452 := by
  simp [priceOf, marketAssets, List.find?]

lemma priceOf_USDT : priceOf "USDT" = 0 := by
  simp [priceOf, marketAssets, List.find?]

lemma metrics_user123 :
    portfolioMetrics portfolioUser123 =
      { total_wallet_value_usd := 1452, total_lending_value_usd := 580.8,
        total_borrowing_value_usd := 0, total_collateral_value_usd := 871.2,
        net_position_usd := 2032.8, health_factor := none } := by
  rw [portfolioMetrics]
  simp [portfolioUser123, priceOf_IOTA, priceOf_USDT]
  norm_num [round2, roundHalfEven]

lemma get_user_portfolio_user123 :
    get_user_portfolio "user_123" =
      .success { portfolio := portfolioUser123,
                 metrics :=
                   { total_wallet_value_usd := 1452,
                     total_lending_value_usd := 580.8,
                     total_borrowing_value_usd := 0,
                     total_collateral_value_usd := 871.2,
                     net_position_usd := 2032.8, health_factor := none } } := by
  have h : user_portfolios.lookup "user_123" = some portfolioUser123 := by rfl
  rw [get_user_portfolio, if_neg (by decide), h]
  simp [metrics_user123]

lemma riskBucket_characterization (v : ℚ) :
    (riskBucket v = "low" ↔ v < 0.3) ∧
    (riskBucket v = "moderate" ↔ 0.3 ≤ v ∧ v < 0.7) ∧
    (riskBucket v = "high" ↔ 0.7 ≤ v) := by
  rw [riskBucket]
  split_ifs with h1 h2 <;> refine ⟨?_, ?_, ?_⟩ <;> simp
  all_goals first
    | rfl
    | linarith
    | (intro h; linarith)
    | (constructor <;> linarith)

lemma healthBucket_characterization (h : ℚ) :
    (healthBucket h = "excellent" ↔ 0.8 < h) ∧
    (healthBucket h = "good" ↔ 0.5 < h ∧ h ≤ 0.8) ∧
    (healthBucket h = "concerning" ↔ h ≤ 0.5) := by
  rw [healthBucket]
  split_ifs with h1 h2 <;> refine ⟨?_, ?_, ?_⟩ <;> simp
  all_goals first
    | rfl
    | linarith
    | (intro h; linarith)
    | (constructor <;> linarith)

lemma utilizationBucket_characterization (u : ℚ) :
    (utilizationBucket u = "low" ↔ u < 60) ∧
    (utilizationBucket u = "moderate" ↔ 60 ≤ u ∧ u < 80) ∧
    (utilizationBucket u = "high" ↔ 80 ≤ u) := by
  rw [utilizationBucket]
  split_ifs with h1 h2 <;> refine ⟨?_, ?_, ?_⟩ <;> simp
  all_goals first
    | rfl
    | linarith
    | (intro h; linarith)
    | (constructor <;> linarith)

lemma collateralSafetyBucket_characterization (c : ℚ) :
    (collateralSafetyBucket c = "high" ↔ 180 < c) ∧
    (collateralSafetyBucket c = "moderate" ↔ 140 < c ∧ c ≤ 180) ∧
    (collateralSafetyBucket c = "low" ↔ c ≤ 140) := by
  rw [collateralSafetyBucket]
  split_ifs with h1 h2 <;> refine ⟨?_, ?_, ?_⟩ <;> simp
  all_goals first
    | rfl
    | linarith
    | (intro h; linarith)
    | (constructor <;> linarith)

lemma mv_eq : riskMetrics.market_volatility = 0.42 := rfl


lemma specAlloc_conservative_short :
    spec_asset_allocation "conservative" "short" 0.42 =
      { stablecoins := 74, IOTA := 23, other_crypto := 3 } := by
  rw [spec_asset_allocation]
  simp only [reduceIte, String.reduceEq]
  norm_num [roundHalfEven]

lemma specAlloc_conservative_medium :
    spec_asset_allocation "conservative" "medium" 0.42 =
      { stablecoins := 64, IOTA := 28, other_crypto := 8 } := by
  rw [spec_asset_allocation]
  simp only [reduceIte, String.reduceEq]
  norm_num [roundHalfEven]

lemma specAlloc_conservative_long :
    spec_asset_allocation "conservative" "long" 0.42 =
      { stablecoins := 54, IOTA := 33, other_crypto := 13 } := by
  rw [spec_asset_allocation]
  simp only [reduceIte, String.reduceEq]
  norm_num [roundHalfEven]

lemma specAlloc_moderate_short :
    spec_asset_allocation "moderate" "short" 0.42 =
      { stablecoins := 54, IOTA := 33, other_crypto := 13 } := by
  rw [spec_asset_allocation]
  simp only [reduceIte, String.reduceEq]
  norm_num [roundHalfEven]

lemma specAlloc_moderate_medium :
    spec_asset_allocation "moderate" "medium" 0.42 =
      { stablecoins := 44, IOTA := 38, other_crypto := 18 } := by
  rw [spec_asset_allocation]
  simp only [reduceIte, String.reduceEq]
  norm_num [roundHalfEven]

lemma specAlloc_moderate_long :
    spec_asset_allocation "moderate" "long" 0.42 =
      { stablecoins := 34, IOTA := 43, other_crypto := 23 } := by
  rw [spec_asset_allocation]
  simp only [reduceIte, String.reduceEq]
  norm_num [roundHalfEven]

lemma specAlloc_aggressive_short :
    spec_asset_allocation "aggressive" "short" 0.42 =
      { stablecoins := 34, IOTA := 43, other_crypto := 23 } := by
  rw [spec_asset_allocation]
  simp only [reduceIte, String.reduceEq]
  norm_num [roundHalfEven]

lemma specAlloc_aggressive_medium :
    spec_asset_allocation "aggressive" "medium" 0.42 =
      { stablecoins := 24, IOTA := 48, other_crypto := 28 } := by
  rw [spec_asset_allocation]
  simp only [reduceIte, String.reduceEq]
  norm_num [roundHalfEven]

lemma specAlloc_aggressive_long :
    spec_asset_allocation "aggressive" "long" 0.42 =
      { stablecoins := 14, IOTA := 53, other_crypto := 33 } := by
  rw [spec_asset_allocation]
  simp only [reduceIte, String.reduceEq]
  norm_num [roundHalfEven]

/-- Claim C1: for every risk_tolerance in the valid set and investment_horizon
in the valid set, with the stored market_volatility 0.42, the asset allocation
computed by the code equals the spec-described procedure (base + horizon delta
+ volatility delta, clamped into [0,100] and rounded, rescaled by 100/sum with
the residual on the largest share when the sum misses 100); in particular
conservative/medium yields stablecoins 64, IOTA 28, other 8. -/
theorem claim_C1 :
    (∀ rt ∈ valid_risk_levels, ∀ ih ∈ valid_horizons,
      generate_asset_allocation rt ih riskMetrics.market_volatility =
        .ok (spec_asset_allocation rt ih riskMetrics.market_volatility)) ∧
    generate_asset_allocation "conservative" "medium"
        riskMetrics.market_volatility =
      .ok { stablecoins := 64, IOTA := 28, other_crypto := 8 } := by
  constructor
  · intro rt hrt ih hih
    fin_cases hrt <;> fin_cases hih <;> rw [mv_eq]
    · rw [genAlloc_conservative_short, specAlloc_conservative_short]
    · rw [genAlloc_conservative_medium, specAlloc_conservative_medium]
    · rw [genAlloc_conservative_long, specAlloc_conservative_long]
    · rw [genAlloc_moderate_short, specAlloc_moderate_short]
    · rw [genAlloc_moderate_medium, specAlloc_moderate_medium]
    · rw [genAlloc_moderate_long, specAlloc_moderate_long]
    · rw [genAlloc_aggressive_short, specAlloc_aggressive_short]
    · rw [genAlloc_aggressive_medium, specAlloc_aggressive_medium]
    · rw [genAlloc_aggressive_long, specAlloc_aggressive_long]
  · rw [mv_eq]; exact genAlloc_conservative_medium

/-- Witness for C1: the universal part applied at the concrete input
conservative/medium, with both membership hypotheses discharged. -/
theorem claim_C1_witness :
    generate_asset_allocation "conservative" "medium"
        riskMetrics.market_volatility =
      .ok (spec_asset_allocation "conservative" "medium"
        riskMetrics.market_volatility) :=
  claim_C1.1 "conservative" (by decide) "medium" (by decide)

/-- Claim C10: for every valid risk tolerance and horizon, with the stored
market volatility 0.42, the clamped rounded allocation triple exists, its
stablecoins entry is at least 14, and the sum the normalization step divides
by is strictly positive, so `scale_factor = 100/total` never divides by
zero. -/
theorem claim_C10 :
    ∀ rt ∈ valid_risk_levels, ∀ ih ∈ valid_horizons,
      ∃ a, clamped_allocation rt ih riskMetrics.market_volatility = some a ∧
        14 ≤ a.stablecoins ∧
        0 < a.stablecoins + a.IOTA + a.other_crypto := by
  intro rt hrt ih hih
  fin_cases hrt <;> fin_cases hih <;> rw [mv_eq]
  · exact ⟨_, clamped_conservative_short, by decide, by decide⟩
  · exact ⟨_, clamped_conservative_medium, by decide, by decide⟩
  · exact ⟨_, clamped_conservative_long, by decide, by decide⟩
  · exact ⟨_, clamped_moderate_short, by decide, by decide⟩
  · exact ⟨_, clamped_moderate_medium, by decide, by decide⟩
  · exact ⟨_, clamped_moderate_long, by decide, by decide⟩
  · exact ⟨_, clamped_aggressive_short, by decide, by decide⟩
  · exact ⟨_, clamped_aggressive_medium, by decide, by decide⟩
  · exact ⟨_, clamped_aggressive_long, by decide, by decide⟩

/-- Witness for C10: the theorem applied at aggressive/long, the combo with
the smallest stablecoins entry. -/
theorem claim_C10_witness :
    ∃ a, clamped_allocation "aggressive" "long"
        riskMetrics.market_volatility = some a ∧
      14 ≤ a.stablecoins ∧
      0 < a.stablecoins + a.IOTA + a.other_crypto :=
  claim_C10 "aggressive" (by decide) "long" (by decide)

/-- Claim C2 counterexample: the claim prescribes health_factor =
collateral_value / borrowing_value, but USDT is absent from the stored asset
table, so borrowing_value = 2000 * price(USDT) = 0 and the code returns the
infinite health factor (modelled `none`), not the rounded quotient. -/
theorem claim_C2_counterexample :
    (match get_user_portfolio "user_123" with
     | .success pm => pm.metrics.health_factor
     | .failure _ => none) ≠
      some (round2 ((6000 * priceOf "IOTA") / (2000 * priceOf "USDT"))) := by
  rw [get_user_portfolio_user123]
  simp

/-- Claim C2 (amended): get_user_portfolio "user_123" succeeds with
wallet_value = 10000*price(IOTA) + 5000*price(USDT), lending_value =
4000*price(IOTA), borrowing_value = 2000*price(USDT), collateral_value =
6000*price(IOTA), each rounded to 2 decimals, where price(USDT) = 0 because
USDT is not stored; health_factor is positive infinity (modelled `none`)
since borrowing_value = 0. -/
theorem claim_C2 :
    get_user_portfolio "user_123" =
      .success
        { portfolio := portfolioUser123,
          metrics :=
            { total_wallet_value_usd :=
                round2 (10000 * priceOf "IOTA" + 5000 * priceOf "USDT"),
              total_lending_value_usd := round2 (4000 * priceOf "IOTA"),
              total_borrowing_value_usd := round2 (2000 * priceOf "USDT"),
              total_collateral_value_usd := round2 (6000 * priceOf "IOTA"),
              net_position_usd :=
                round2 (10000 * priceOf "IOTA" + 5000 * priceOf "USDT" +
                  4000 * priceOf "IOTA" - 2000 * priceOf "USDT"),
              health_factor := none } } := by
  rw [get_user_portfolio_user123]
  norm_num [priceOf_IOTA, priceOf_USDT, round2, roundHalfEven]

/-- Claim C3: for every known user id, get_user_portfolio returns the stored
portfolio unchanged, augmented with metrics: the four monetary sums over
amounts times current prices (price 0 for absent symbols; collateral only
over borrowing positions carrying collateral), net_position = wallet +
lending - borrowing, and health_factor = collateral/borrowing when
borrowing > 0 and positive infinity (`none`) otherwise, all rounded to 2
decimal places. -/
theorem claim_C3 :
    ∀ uid p, user_portfolios.lookup uid = some p →
      get_user_portfolio uid =
        .success
          { portfolio := p,
            metrics :=
              { total_wallet_value_usd :=
                  round2 ((p.wallet_balance.map
                    (fun ab => ab.2 * priceOf ab.1)).sum),
                total_lending_value_usd :=
                  round2 ((p.lending_positions.map
                    (fun pos => pos.deposited * priceOf pos.asset)).sum),
                total_borrowing_value_usd :=
                  round2 ((p.borrowing_positions.map
                    (fun pos => pos.borrowed * priceOf pos.asset)).sum),
                total_collateral_value_usd :=
                  round2 ((p.borrowing_positions.filterMap
                    (fun pos => pos.collateral.map
                      (fun c => c.amount * priceOf c.asset))).sum),
                net_position_usd :=
                  round2 ((p.wallet_balance.map
                      (fun ab => ab.2 * priceOf ab.1)).sum +
                    (p.lending_positions.map
                      (fun pos => pos.deposited * priceOf pos.asset)).sum -
                    (p.borrowing_positions.map
                      (fun pos => pos.borrowed * priceOf pos.asset)).sum),
                health_factor :=
                  if 0 < (p.borrowing_positions.map
                      (fun pos => pos.borrowed * priceOf pos.asset)).sum then
                    some (round2
                      (((p.borrowing_positions.filterMap
                          (fun pos => pos.collateral.map
                            (fun c => c.amount * priceOf c.asset))).sum) /
                        ((p.borrowing_positions.map
                          (fun pos => pos.borrowed * priceOf pos.asset)).sum)))
                  else none } } := by
  intro uid p h
  by_cases huid : uid = "user_123"
  · subst huid
    rw [show user_portfolios.lookup "user_123" = some portfolioUser123 from rfl]
      at h
    injection h with h
    subst h
    rw [get_user_portfolio_user123]
    norm_num [portfolioUser123, priceOf_IOTA, priceOf_USDT, round2,
      roundHalfEven, List.filterMap_cons, List.filterMap_nil]
  · exfalso
    simp only [user_portfolios, List.lookup] at h
    rw [show (uid == "user_123") = false by simp [huid]] at h
    simp [List.lookup] at h

/-- Witness for C3: the theorem applied at the stored user id. -/
theorem claim_C3_witness :
    get_user_portfolio "user_123" =
      .success
        { portfolio := portfolioUser123,
          metrics :=
            { total_wallet_value_usd :=
                round2 ((portfolioUser123.wallet_balance.map
                  (fun ab => ab.2 * priceOf ab.1)).sum),
              total_lending_value_usd :=
                round2 ((portfolioUser123.lending_positions.map
                  (fun pos => pos.deposited * priceOf pos.asset)).sum),
              total_borrowing_value_usd :=
                round2 ((portfolioUser123.borrowing_positions.map
                  (fun pos => pos.borrowed * priceOf pos.asset)).sum),
              total_collateral_value_usd :=
                round2 ((portfolioUser123.borrowing_positions.filterMap
                  (fun pos => pos.collateral.map
                    (fun c => c.amount * priceOf c.asset))).sum),
              net_position_usd :=
                round2 ((portfolioUser123.wallet_balance.map
                    (fun ab => ab.2 * priceOf ab.1)).sum +
                  (portfolioUser123.lending_positions.map
                    (fun pos => pos.deposited * priceOf pos.asset)).sum -
                  (portfolioUser123.borrowing_positions.map
                    (fun pos => pos.borrowed * priceOf pos.asset)).sum),
              health_factor :=
                if 0 < (portfolioUser123.borrowing_positions.map
                    (fun pos => pos.borrowed * priceOf pos.asset)).sum then
                  some (round2
                    (((portfolioUser123.borrowing_positions.filterMap
                        (fun pos => pos.collateral.map
                          (fun c => c.amount * priceOf c.asset))).sum) /
                      ((portfolioUser123.borrowing_positions.map
                        (fun pos => pos.borrowed * priceOf pos.asset)).sum)))
                else none } } :=
  claim_C3 "user_123" portfolioUser123 (by rfl)

/-- Claim C4: an empty or absent symbol list returns all stored assets in
stored order; a non-empty list returns exactly the stored assets whose symbol
is in it, preserving stored order; and the call fails with the no-data error
exactly when the list is non-empty and no stored symbol belongs to it. -/
theorem claim_C4 :
    ∀ l : List String,
      get_market_data none = .success marketAssets ∧
      get_market_data (some []) = .success marketAssets ∧
      (l ≠ [] → marketAssets.filter (fun a => l.contains a.symbol) ≠ [] →
        get_market_data (some l) =
          .success (marketAssets.filter (fun a => l.contains a.symbol))) ∧
      ((∃ m, get_market_data (some l) = .failure m) ↔
        (l ≠ [] ∧ ∀ a ∈ marketAssets, a.symbol ∉ l)) := by
  intro l
  refine ⟨rfl, rfl, ?_, ?_, ?_⟩
  · intro hne hfil
    simp only [get_market_data]
    rw [if_neg hne, if_neg hfil]
  · rintro ⟨m, hm⟩
    by_cases hl : l = []
    · subst hl; simp [get_market_data] at hm
    · refine ⟨hl, ?_⟩
      by_cases hfil : marketAssets.filter (fun a => l.contains a.symbol) = []
      · intro a ha hmem
        have := List.filter_eq_nil_iff.mp hfil a ha
        simp [List.elem_iff] at this
        exact this hmem
      · exfalso
        simp only [get_market_data] at hm
        rw [if_neg hl, if_neg hfil] at hm
        exact ToolResult.noConfusion hm
  · rintro ⟨hl, hall⟩
    have hfil : marketAssets.filter (fun a => l.contains a.symbol) = [] := by
      rw [List.filter_eq_nil_iff]
      intro a ha
      simpa [List.elem_iff] using hall a ha
    refine ⟨"No data found for assets: " ++ String.intercalate ", " l, ?_⟩
    simp only [get_market_data]
    rw [if_neg hl, if_pos hfil]

/-- Witness for C4: the filtered branch applied at the concrete list
containing only "IOTA", with both hypotheses discharged. -/
theorem claim_C4_witness :
    get_market_data (some ["IOTA"]) =
      .success (marketAssets.filter (fun a => ["IOTA"].contains a.symbol)) :=
  (claim_C4 ["IOTA"]).2.2.1 (by decide) (by simp [marketAssets])

/-- Claim C5: get_lending_pools keeps, from the stored pool list in stored
order, exactly the pools passing the min_apy filter (when given) and the
asset-intersection filter (when a non-empty list is given), failing with an
error naming the applied filters exactly when nothing remains; in particular
min_apy = 5 keeps only the stored 8.76%-APY pool. -/
theorem claim_C5 :
    ∀ (m : Option ℚ) (al : Option (List String)),
      (spec_kept_pools m al ≠ [] →
        get_lending_pools m al = .success (spec_kept_pools m al)) ∧
      (get_lending_pools m al =
          .failure ("No lending pools found with filters: " ++
            lendingPoolFilterString m al) ↔ spec_kept_pools m al = []) ∧
      get_lending_pools (some 5) none = .success [poolTwo] := by
  have key : ∀ m al, get_lending_pools m al =
      if spec_kept_pools m al = [] then
        .failure ("No lending pools found with filters: " ++
          lendingPoolFilterString m al)
      else .success (spec_kept_pools m al) := by
    intro m al
    cases m with
    | none =>
        cases al with
        | none => simp [get_lending_pools, spec_kept_pools]
        | some l =>
            by_cases hl : l = [] <;>
              simp [get_lending_pools, spec_kept_pools, hl]
    | some x =>
        cases al with
        | none => simp [get_lending_pools, spec_kept_pools]
        | some l =>
            by_cases hl : l = []
            · simp [get_lending_pools, spec_kept_pools, hl]
            · have h2 : spec_kept_pools (some x) (some l) =
                  (lendingPools.filter (fun p => decide (x ≤ p.apy))).filter
                    (fun p => l.any (fun a => p.assets.contains a)) := by
                rw [List.filter_filter]
                apply List.filter_congr
                intro p hp
                simp [hl, Bool.and_comm]
              simp only [get_lending_pools]
              rw [if_neg hl, h2]
  intro m al
  refine ⟨?_, ?_, ?_⟩
  · intro hne
    rw [key m al, if_neg hne]
  · rw [key m al]
    by_cases hk : spec_kept_pools m al = []
    · rw [if_pos hk]; simp [hk]
    · rw [if_neg hk]; simp [hk]
  · rw [key (some 5) none]
    have : spec_kept_pools (some 5) none = [poolTwo] := by
      simp [spec_kept_pools, lendingPools, List.filter]
      norm_num [poolOne, poolTwo]
    rw [this]
    simp

/-- Witness for C5: the success branch applied at the concrete filter
min_apy = 5 with no asset filter. -/
theorem claim_C5_witness :
    get_lending_pools (some 5) none = .success (spec_kept_pools (some 5) none) :=
  (claim_C5 (some 5) none).1
    (by simp [spec_kept_pools, lendingPools, List.filter]
        norm_num [poolOne, poolTwo])

/-- Claim C6: for every valid profile, the opportunity list contains the
pool_1 lending opportunity (risk "Low") always, the pool_2 lending
opportunity (risk "Medium-High") iff risk_tolerance is moderate or
aggressive, the IOTA-staking opportunity iff risk_tolerance is not
conservative, and the IOTA-BTC farming opportunity (12-15%, High) iff
risk_tolerance is aggressive and the horizon is not short; in particular
aggressive/short excludes the farming opportunity and aggressive/medium
includes it. -/
theorem claim_C6 :
    (∀ rt ∈ valid_risk_levels, ∀ ih ∈ valid_horizons,
      oppPoolOne ∈ generate_opportunities rt ih ∧
      (oppPoolTwo ∈ generate_opportunities rt ih ↔
        (rt = "moderate" ∨ rt = "aggressive")) ∧
      (oppStaking ∈ generate_opportunities rt ih ↔ rt ≠ "conservative") ∧
      (oppFarming ∈ generate_opportunities rt ih ↔
        (rt = "aggressive" ∧ ih ≠ "short"))) ∧
    oppFarming ∉ generate_opportunities "aggressive" "short" ∧
    oppFarming ∈ generate_opportunities "aggressive" "medium" := by
  refine ⟨?_, ?_, ?_⟩
  · intro rt hrt ih hih
    fin_cases hrt <;> fin_cases hih
    · rw [opps_conservative]; decide
    · rw [opps_conservative]; decide
    · rw [opps_conservative]; decide
    · rw [opps_moderate]; decide
    · rw [opps_moderate]; decide
    · rw [opps_moderate]; decide
    · rw [opps_aggressive_short]; decide
    · rw [opps_aggressive_medium]; decide
    · rw [opps_aggressive_long]; decide
  · rw [opps_aggressive_short]; decide
  · rw [opps_aggressive_medium]; decide

/-- Witness for C6: the universal part applied at aggressive/medium. -/
theorem claim_C6_witness :
    oppPoolOne ∈ generate_opportunities "aggressive" "medium" ∧
    (oppPoolTwo ∈ generate_opportunities "aggressive" "medium" ↔
      ("aggressive" = "moderate" ∨ "aggressive" = "aggressive")) ∧
    (oppStaking ∈ generate_opportunities "aggressive" "medium" ↔
      "aggressive" ≠ "conservative") ∧
    (oppFarming ∈ generate_opportunities "aggressive" "medium" ↔
      ("aggressive" = "aggressive" ∧ "medium" ≠ "short")) :=
  claim_C6.1 "aggressive" (by decide) "medium" (by decide)

/-- Claim C7: the market-wide assessment buckets volatility and liquidation
risk as low (<0.3) / moderate (<0.7) / high (≥0.7) and protocol health as
excellent (>0.8) / good (>0.5) / concerning (≤0.5), so the stored metrics
0.42 / 0.31 / 0.89 classify as moderate / moderate / excellent; the pool
branch buckets utilization as low (<60) / moderate (<80) / high (≥80) and
collateral ratio as high (>180) / moderate (>140) / low (≤140) and picks the
high-utilization recommendation pair exactly when utilization > 80; an
unknown pool id fails with a not-found error naming the id. -/
theorem claim_C7 :
    (∀ v : ℚ, (riskBucket v = "low" ↔ v < 0.3) ∧
      (riskBucket v = "moderate" ↔ 0.3 ≤ v ∧ v < 0.7) ∧
      (riskBucket v = "high" ↔ 0.7 ≤ v)) ∧
    (∀ h : ℚ, (healthBucket h = "excellent" ↔ 0.8 < h) ∧
      (healthBucket h = "good" ↔ 0.5 < h ∧ h ≤ 0.8) ∧
      (healthBucket h = "concerning" ↔ h ≤ 0.5)) ∧
    (∀ u : ℚ, (utilizationBucket u = "low" ↔ u < 60) ∧
      (utilizationBucket u = "moderate" ↔ 60 ≤ u ∧ u < 80) ∧
      (utilizationBucket u = "high" ↔ 80 ≤ u)) ∧
    (∀ c : ℚ, (collateralSafetyBucket c = "high" ↔ 180 < c) ∧
      (collateralSafetyBucket c = "moderate" ↔ 140 < c ∧ c ≤ 180) ∧
      (collateralSafetyBucket c = "low" ↔ c ≤ 140)) ∧
    riskBucket riskMetrics.market_volatility = "moderate" ∧
    riskBucket riskMetrics.liquidation_risk = "moderate" ∧
    healthBucket riskMetrics.protocol_health = "excellent" ∧
    get_risk_assessment none = .success (.market marketRiskAnalysis) ∧
    get_risk_assessment (some "pool_1") =
      .success (.pool (poolRiskAnalysis poolOne)) ∧
    (poolRiskAnalysis poolOne).recommendations =
      ["This pool has capacity for more deposits",
       "Standard collateral ratios are likely sufficient"] ∧
    get_risk_assessment (some "pool_2") =
      .success (.pool (poolRiskAnalysis poolTwo)) ∧
    (poolRiskAnalysis poolTwo).recommendations =
      ["Consider depositing more assets to earn higher yields",
       "Maintain higher collateral ratios due to high utilization"] ∧
    (∀ p : LendingPool, (poolRiskAnalysis p).recommendations =
      ["Consider depositing more assets to earn higher yields",
       "Maintain higher collateral ratios due to high utilization"] ↔
        80 < p.utilization_rate) ∧
    (∀ pid, pid ≠ "" → lendingPools.find? (fun p => p.id = pid) = none →
      get_risk_assessment (some pid) =
        .failure ("Lending pool with ID " ++ pid ++ " not found")) := by
  refine ⟨riskBucket_characterization, healthBucket_characterization,
    utilizationBucket_characterization, collateralSafetyBucket_characterization,
    ?_, ?_, ?_, rfl, ?_, ?_, ?_, ?_, ?_, ?_⟩
  · norm_num [riskBucket, riskMetrics]
  · norm_num [riskBucket, riskMetrics]
  · norm_num [healthBucket, riskMetrics]
  · have hfind : lendingPools.find? (fun p => p.id = "pool_1") = some poolOne := by
      simp [lendingPools, List.find?, poolOne]
    simp only [get_risk_assessment]
    rw [if_neg (by decide), hfind]
  · norm_num [poolRiskAnalysis, poolOne]
  · have hfind : lendingPools.find? (fun p => p.id = "pool_2") = some poolTwo := by
      simp [lendingPools, List.find?, poolOne, poolTwo]
    simp only [get_risk_assessment]
    rw [if_neg (by decide), hfind]
  · norm_num [poolRiskAnalysis, poolTwo]
  · intro p
    by_cases hu : 80 < p.utilization_rate
    · simp [poolRiskAnalysis, hu]
    · simp [poolRiskAnalysis, hu]
  · intro pid hne hfind
    simp only [get_risk_assessment]
    rw [if_neg hne, hfind]

/-- Witness for C7: the not-found clause applied at the unknown pool id
pool_x, with both hypotheses discharged. -/
theorem claim_C7_witness :
    get_risk_assessment (some "pool_x") =
      .failure ("Lending pool with ID " ++ "pool_x" ++ " not found") :=
  claim_C7.2.2.2.2.2.2.2.2.2.2.2.2.2 "pool_x" (by decide)
    (by simp [lendingPools, List.find?, poolOne, poolTwo])

lemma loaded_iff (uid : Option String) :
    (match uid with
     | none => (none : Option UserPortfolio)
     | some u => if u = "" then none else user_portfolios.lookup u).isSome ↔
      uid = some "user_123" := by
  cases uid with
  | none => simp
  | some u =>
      by_cases hu : u = ""
      · subst hu; simp
      · simp only [if_neg hu]
        by_cases h1 : u = "user_123"
        · subst h1; simp [user_portfolios, List.lookup]
        · rw [show user_portfolios.lookup u = none by
            simp only [user_portfolios, List.lookup]
            rw [show (u == "user_123") = false by simp [h1]]]
          simp [h1]

/-- Claim C8: get_ai_investment_recommendations fails with the
allowed-values error whenever risk_tolerance or investment_horizon is
outside its enum; with both valid it always succeeds — an unknown user_id
causes no error — and the result carries portfolio_specific exactly when the
user_id matches the stored portfolio key. -/
theorem claim_C8 :
    ∀ rt ih uid,
      (rt ∉ valid_risk_levels →
        get_ai_investment_recommendations rt ih uid =
          .failure ("Invalid risk_tolerance. Must be one of: " ++
            String.intercalate ", " valid_risk_levels)) ∧
      (rt ∈ valid_risk_levels → ih ∉ valid_horizons →
        get_ai_investment_recommendations rt ih uid =
          .failure ("Invalid investment_horizon. Must be one of: " ++
            String.intercalate ", " valid_horizons)) ∧
      (rt ∈ valid_risk_levels → ih ∈ valid_horizons →
        ∃ r, get_ai_investment_recommendations rt ih uid = .success r ∧
          (r.portfolio_specific.isSome ↔ uid = some "user_123")) := by
  intro rt ih uid
  refine ⟨?_, ?_, ?_⟩
  · intro hrt
    have h1 : ¬ (valid_risk_levels.contains rt = true) := by
      simpa [List.elem_iff] using hrt
    simp only [get_ai_investment_recommendations]
    rw [if_pos h1]
  · intro hrt hih
    have h1 : valid_risk_levels.contains rt = true := by
      simpa [List.elem_iff] using hrt
    have h2 : ¬ (valid_horizons.contains ih = true) := by
      simpa [List.elem_iff] using hih
    simp only [get_ai_investment_recommendations]
    rw [if_neg (not_not_intro h1), if_pos h2]
  · intro hrt hih
    fin_cases hrt <;> fin_cases hih <;>
      [ (simp only [get_ai_investment_recommendations]
         rw [if_neg (by decide), if_neg (by decide), mv_eq,
           genAlloc_conservative_short]
         refine ⟨_, rfl, ?_⟩
         simpa [Option.isSome_map] using loaded_iff uid);
        (simp only [get_ai_investment_recommendations]
         rw [if_neg (by decide), if_neg (by decide), mv_eq,
           genAlloc_conservative_medium]
         refine ⟨_, rfl, ?_⟩
         simpa [Option.isSome_map] using loaded_iff uid);
        (simp only [get_ai_investment_recommendations]
         rw [if_neg (by decide), if_neg (by decide), mv_eq,
           genAlloc_conservative_long]
         refine ⟨_, rfl, ?_⟩
         simpa [Option.isSome_map] using loaded_iff uid);
        (simp only [get_ai_investment_recommendations]
         rw [if_neg (by decide), if_neg (by decide), mv_eq,
           genAlloc_moderate_short]
         refine ⟨_, rfl, ?_⟩
         simpa [Option.isSome_map] using loaded_iff uid);
        (simp only [get_ai_investment_recommendations]
         rw [if_neg (by decide), if_neg (by decide), mv_eq,
           genAlloc_moderate_medium]
         refine ⟨_, rfl, ?_⟩
         simpa [Option.isSome_map] using loaded_iff uid);
        (simp only [get_ai_investment_recommendations]
         rw [if_neg (by decide), if_neg (by decide), mv_eq,
           genAlloc_moderate_long]
         refine ⟨_, rfl, ?_⟩
         simpa [Option.isSome_map] using loaded_iff uid);
        (simp only [get_ai_investment_recommendations]
         rw [if_neg (by decide), if_neg (by decide), mv_eq,
           genAlloc_aggressive_short]
         refine ⟨_, rfl, ?_⟩
         simpa [Option.isSome_map] using loaded_iff uid);
        (simp only [get_ai_investment_recommendations]
         rw [if_neg (by decide), if_neg (by decide), mv_eq,
           genAlloc_aggressive_medium]
         refine ⟨_, rfl, ?_⟩
         simpa [Option.isSome_map] using loaded_iff uid);
        (simp only [get_ai_investment_recommendations]
         rw [if_neg (by decide), if_neg (by decide), mv_eq,
           genAlloc_aggressive_long]
         refine ⟨_, rfl, ?_⟩
         simpa [Option.isSome_map] using loaded_iff uid) ]

/-- Witness for C8: the success clause applied at a valid profile with an
unknown user id, which produces no error and no portfolio_specific field. -/
theorem claim_C8_witness :
    ∃ r, get_ai_investment_recommendations "conservative" "short"
        (some "nobody") = .success r ∧
      (r.portfolio_specific.isSome ↔
        (some "nobody" : Option String) = some "user_123") :=
  (claim_C8 "conservative" "short" (some "nobody")).2.2 (by decide) (by decide)

/-- Claim C9: every one of the five query operations is total at its
boundary, returning for every input either a success envelope with a payload
or a failure envelope with a descriptive message; the recommendation
operation factors through `ai_recommendations_core`, the body of its `try`
block, which converts any `Except.error` fault of the allocation generator
into the failure envelope carrying the underlying cause's message and wraps
any `Except.ok` value into the success envelope, so no fault value crosses
the boundary unconverted. -/
theorem claim_C9 :
    (∀ rt ih uid, get_ai_investment_recommendations rt ih uid =
      if ¬ valid_risk_levels.contains rt then
        .failure ("Invalid risk_tolerance. Must be one of: " ++
          String.intercalate ", " valid_risk_levels)
      else if ¬ valid_horizons.contains ih then
        .failure ("Invalid investment_horizon. Must be one of: " ++
          String.intercalate ", " valid_horizons)
      else ai_recommendations_core rt ih uid riskMetrics.market_volatility) ∧
    (∀ rt ih uid mv e,
      generate_asset_allocation rt ih mv = .error e →
        ai_recommendations_core rt ih uid mv =
          .failure ("Error generating investment recommendations: " ++ e)) ∧
    (∀ rt ih uid mv a,
      generate_asset_allocation rt ih mv = .ok a →
        ∃ r, ai_recommendations_core rt ih uid mv = .success r ∧
          r.asset_allocation = a) ∧
    (∀ a, (∃ d, get_market_data a = .success d) ∨
      (∃ m, get_market_data a = .failure m)) ∧
    (∀ m al, (∃ d, get_lending_pools m al = .success d) ∨
      (∃ s, get_lending_pools m al = .failure s)) ∧
    (∀ pid, (∃ d, get_risk_assessment pid = .success d) ∨
      (∃ s, get_risk_assessment pid = .failure s)) ∧
    (∀ uid, (∃ d, get_user_portfolio uid = .success d) ∨
      (∃ s, get_user_portfolio uid = .failure s)) ∧
    (∀ rt ih uid,
      (∃ d, get_ai_investment_recommendations rt ih uid = .success d) ∨
      (∃ s, get_ai_investment_recommendations rt ih uid = .failure s)) := by
  refine ⟨?_, ?_, ?_, ?_, ?_, ?_, ?_, ?_⟩
  · intro rt ih uid
    rfl
  · intro rt ih uid mv e h
    simp only [ai_recommendations_core]
    rw [h]
  · intro rt ih uid mv a h
    simp only [ai_recommendations_core]
    rw [h]
    exact ⟨_, rfl, rfl⟩
  · intro a
    cases h : get_market_data a with
    | success d => exact Or.inl ⟨d, rfl⟩
    | failure m => exact Or.inr ⟨m, rfl⟩
  · intro m al
    cases h : get_lending_pools m al with
    | success d => exact Or.inl ⟨d, rfl⟩
    | failure s => exact Or.inr ⟨s, rfl⟩
  · intro pid
    cases h : get_risk_assessment pid with
    | success d => exact Or.inl ⟨d, rfl⟩
    | failure s => exact Or.inr ⟨s, rfl⟩
  · intro uid
    cases h : get_user_portfolio uid with
    | success d => exact Or.inl ⟨d, rfl⟩
    | failure s => exact Or.inr ⟨s, rfl⟩
  · intro rt ih uid
    cases h : get_ai_investment_recommendations rt ih uid with
    | success d => exact Or.inl ⟨d, rfl⟩
    | failure s => exact Or.inr ⟨s, rfl⟩

/-- Witness for C9: the fault-conversion clause applied at a concrete faulty
input — an unknown risk tolerance makes the allocation generator return the
modelled KeyError, and the core converts it into the failure envelope
carrying that message. -/
theorem claim_C9_witness :
    generate_asset_allocation "bogus" "medium" (0.42 : ℚ) =
      .error "KeyError: bogus or medium" ∧
    ai_recommendations_core "bogus" "medium" none (0.42 : ℚ) =
      .failure ("Error generating investment recommendations: " ++
        "KeyError: bogus or medium") :=
  ⟨by rfl,
   claim_C9.2.1 "bogus" "medium" none 0.42 "KeyError: bogus or medium"
     (by rfl)⟩
